import Mathlib

/-!
Shallow embedding of the Window Placement Reconciliation Engine of the
smart-auto-move repository.  The repository ships only its integration tests
under src/tests; the engine itself is not part of the source tree, so every
engine definition below is modelled from the specification (spec.md) and is
marked as such in its doc comment.  Geometry is exact integer arithmetic;
the window-manager adapter is modelled as a faithful interpreter of the
placement operations the engine emits.
-/

namespace SmartAutoMove

/-- Modelled from the spec: a window rectangle, absolute or monitor-relative
(x, y, width, height as exact integers). -/
structure Rect where
  x : Int
  y : Int
  w : Int
  h : Int
deriving DecidableEq

/-- Modelled from the spec: maximized state of a window (none, horizontal,
vertical, or both). -/
inductive MaximizedState
  | none
  | horizontal
  | vertical
  | both
deriving DecidableEq

/-- Modelled from the spec: tiling position of a window (none, left, right). -/
inductive TilePosition
  | none
  | left
  | right
deriving DecidableEq

/-- Modelled from the spec: one monitor as reported by listMonitors — its stable
hardware connector name and its absolute geometry. -/
structure MonitorGeometry where
  connector : String
  x : Int
  y : Int
  w : Int
  h : Int
deriving DecidableEq

/-- Modelled from the spec: a title fingerprint is either the literal specific
title or the generic wildcard sentinel. -/
inductive TitleFingerprint
  | specific (title : String)
  | wildcard
deriving DecidableEq

/-- Modelled from the spec: a window identity is the pair of the stable
application id and the title fingerprint. -/
structure WindowIdentity where
  applicationId : String
  fingerprint : TitleFingerprint
deriving DecidableEq

/-- Modelled from the spec: the saved per-identity window record.  The
`relativeRect` is relative to the origin of the monitor the window was saved
on; it is optional here exactly so that the missing-relative-rect error path
of the Operation Planner is representable. -/
structure SavedWindowConfig where
  applicationId : String
  titlePattern : String
  relativeRect : Option Rect
  monitorConnector : String
  workspaceIndex : Nat
  maximizedState : MaximizedState
  fullscreen : Bool
  tilePosition : TilePosition
deriving DecidableEq

/-- Modelled from the spec: the restore decision of the Sync Policy Resolver. -/
inductive SyncAction
  | restore
  | ignore
deriving DecidableEq

/-- Modelled from the spec: a per-application override rule with its action and
similarity threshold in the unit interval (matchProperties is an opaque match
descriptor the engine never interprets). -/
structure OverrideRule where
  applicationId : String
  action : SyncAction
  similarityThreshold : ℚ
  matchProperties : List String
deriving DecidableEq

/-- Modelled from the spec: the live details of a window as returned by the
window-manager adapter's getDetails. -/
structure WindowState where
  applicationId : String
  title : String
  rect : Rect
  workspace : Nat
  connector : String
  maximizedState : MaximizedState
  fullscreen : Bool
  tilePosition : TilePosition
deriving DecidableEq

/-- Modelled from the spec: the placement operations the Operation Planner can
emit through the window-manager adapter. -/
inductive PlacementOperation
  | moveToWorkspace (idx : Nat)
  | moveToMonitor (connector : String)
  | maximize (st : MaximizedState)
  | unmaximize
  | setFullscreen (b : Bool)
  | place (r : Rect)
  | tile (pos : TilePosition) (connector : String)
deriving DecidableEq

/-- Modelled from the spec: the error taxonomy of the engine. -/
inductive EngineError
  | configMissingRelativeRect
  | driftCorrectionExhausted
  | targetMonitorUnavailable
  | windowManagerCallFailed
deriving DecidableEq

/-- Modelled from the spec: the per-window lifecycle phases of the
Reconciliation State Machine. -/
inductive Phase
  | new
  | tracking
  | matching
  | restoring
  | settling
  | settled
  | closed
deriving DecidableEq

/-- Modelled from the spec: the runtime record for one live window, owned by the
Reconciliation State Machine. -/
structure TrackedWindow where
  identity : WindowIdentity
  phase : Phase
  live : WindowState
  targetConfig : Option SavedWindowConfig
  driftAttemptCount : Nat
deriving DecidableEq

/-- Modelled from the spec: the process-wide engine state — the saved-window
records keyed by identity, the per-identity monitor preference stacks, the
global sync mode and the per-application override rules. -/
structure EngineState where
  savedConfigs : List (WindowIdentity × SavedWindowConfig)
  prefStacks : List (WindowIdentity × List String)
  syncMode : SyncAction
  overrides : List OverrideRule
deriving DecidableEq

/-- Modelled from the spec: the outcome of one engine step — the updated shared
state, the updated tracked window, the placement operations issued to the
window manager, and an optionally surfaced error. -/
structure StepResult where
  es : EngineState
  tw : TrackedWindow
  ops : List PlacementOperation
  err : Option EngineError
deriving DecidableEq

/-! ### Geometry conversions -/

/-- Modelled from the spec: absolute rect = target connector origin + relative
rect (the mandatory conversion of Operation Planner step 3). -/
def absoluteRect (geom : MonitorGeometry) (rel : Rect) : Rect :=
  ⟨geom.x + rel.x, geom.y + rel.y, rel.w, rel.h⟩

/-- Modelled from the spec: the inverse conversion used when saving — a live
absolute rect expressed relative to the owning monitor's origin. -/
def relRectOf (geom : MonitorGeometry) (r : Rect) : Rect :=
  ⟨r.x - geom.x, r.y - geom.y, r.w, r.h⟩

/-! ### Title Specificity Classifier and Identity Matcher -/

/-- Modelled from the spec: the default minimum length for a title to count as
specific. -/
def minSpecificLength : Nat := 15

/-- Modelled from the spec: a title is Generic when shorter than the minimum
specific length or when it is the bare-application-name placeholder; otherwise
Specific. -/
def classifySpecific (applicationId title : String) : Bool :=
  decide (minSpecificLength ≤ title.length) && !(title == applicationId)

/-- Modelled from the spec: the fingerprint of a live title — the literal title
when Specific, the wildcard sentinel when Generic. -/
def fingerprintOf (applicationId title : String) : TitleFingerprint :=
  if classifySpecific applicationId title then .specific title else .wildcard

/-- Modelled from the spec: the identity under which a live window is matched
and saved. -/
def identityOf (applicationId title : String) : WindowIdentity :=
  ⟨applicationId, fingerprintOf applicationId title⟩

/-- Lookup of the saved record for an identity in the config store. -/
def lookupConfig (s : List (WindowIdentity × SavedWindowConfig))
    (i : WindowIdentity) : Option SavedWindowConfig :=
  (s.find? fun e => e.1 = i).map (·.2)

/-- Modelled from the spec: last-write-wins write of the saved record for an
identity; any previous record for the same identity is replaced. -/
def writeConfig (s : List (WindowIdentity × SavedWindowConfig))
    (i : WindowIdentity) (c : SavedWindowConfig) :
    List (WindowIdentity × SavedWindowConfig) :=
  (i, c) :: s.filter fun e => e.1 ≠ i

/-- Modelled from the spec: exact-fingerprint matching — a Specific title
prefers its exact record and falls back to the application's wildcard record;
a Generic title uses the wildcard record only. -/
def matchRecord (saved : List (WindowIdentity × SavedWindowConfig))
    (applicationId title : String) : Option SavedWindowConfig :=
  if classifySpecific applicationId title then
    (lookupConfig saved ⟨applicationId, .specific title⟩).orElse
      fun _ => lookupConfig saved ⟨applicationId, .wildcard⟩
  else lookupConfig saved ⟨applicationId, .wildcard⟩

/-! ### Sync Policy Resolver -/

/-- Lookup of the override rule for an application id. -/
def findRule (rules : List OverrideRule) (applicationId : String) :
    Option OverrideRule :=
  rules.find? fun r => r.applicationId = applicationId

/-- Modelled from the spec: the Sync Policy Resolver — an override's action when
one exists for the application (downgraded to IGNORE when the match confidence
is below the similarity threshold), else the global default sync mode. -/
def resolvePolicy (rules : List OverrideRule) (syncMode : SyncAction)
    (applicationId : String) (matchConfidence : ℚ) : SyncAction :=
  match findRule rules applicationId with
  | some r => if matchConfidence < r.similarityThreshold then .ignore else r.action
  | none => syncMode

/-! ### Monitor Preference Stack -/

/-- Modelled from the spec: scan the identity's preference sequence
front-to-back and return the first connector present among the available
connectors, or none when no listed connector is available. -/
def resolveTargetConnector (prefs : List String) (available : List String) :
    Option String :=
  prefs.find? fun c => available.contains c

/-- Modelled from the spec: a user-initiated monitor move puts the chosen
connector at the front of the preference sequence, inserting it if absent. -/
def recordUserMove (prefs : List String) (connector : String) : List String :=
  connector :: prefs.erase connector

/-- The preference stack currently recorded for an identity (empty if none). -/
def stackOf (es : EngineState) (i : WindowIdentity) : List String :=
  ((es.prefStacks.find? fun e => e.1 = i).map (·.2)).getD []

/-- Replacing write of an identity's preference stack. -/
def writeStack (s : List (WindowIdentity × List String)) (i : WindowIdentity)
    (prefs : List String) : List (WindowIdentity × List String) :=
  (i, prefs) :: s.filter fun e => e.1 ≠ i

/-! ### Monitors -/

/-- The connector names of the currently available monitors. -/
def connectors (ms : List MonitorGeometry) : List String :=
  ms.map (·.connector)

/-- The geometry of the monitor with the given connector, if available. -/
def findGeom (ms : List MonitorGeometry) (c : String) : Option MonitorGeometry :=
  ms.find? fun g => g.connector = c

/-- Modelled from the spec: the primary/default monitor, modelled as the first
monitor in the reported list. -/
def primaryConnector (ms : List MonitorGeometry) : String :=
  ((ms.head?).map (·.connector)).getD ""

/-- Modelled from the spec: the restore target monitor — the preference stack's
first available connector; when the stack resolves to none, the caller falls
back without modifying the stack, to the saved connector when it is still
available and otherwise to the primary/default monitor. -/
def restoreTarget (es : EngineState) (i : WindowIdentity)
    (ms : List MonitorGeometry) (cfg : SavedWindowConfig) : String :=
  match resolveTargetConnector (stackOf es i) (connectors ms) with
  | some c => c
  | Option.none =>
      if (connectors ms).contains cfg.monitorConnector then cfg.monitorConnector
      else primaryConnector ms

/-! ### Operation Planner -/

/-- Modelled from the spec: Operation Planner steps 3 to 6 for a target config
whose relative rect is `rel` — maximize/fullscreen adjustment, then
`Place(absoluteRect)` only when not fullscreen and not fully maximized, then
tiling re-application last. -/
def planOps36 (current : WindowState) (target : SavedWindowConfig)
    (geom : MonitorGeometry) (rel : Rect) : List PlacementOperation :=
  (if target.maximizedState ≠ current.maximizedState then
      (if target.maximizedState = .none then [.unmaximize]
       else [.maximize target.maximizedState])
    else [])
  ++ (if target.fullscreen ≠ current.fullscreen then
        [.setFullscreen target.fullscreen]
      else [])
  ++ (if target.fullscreen = false ∧ target.maximizedState ≠ .both then
        [.place (absoluteRect geom rel)]
      else [])
  ++ (if target.tilePosition ≠ .none then
        [.tile target.tilePosition target.monitorConnector]
      else [])

/-- Modelled from the spec: Operation Planner steps 1 and 2 — move to the target
workspace and to the target monitor, each only when it differs from the current
one. -/
def planSteps12 (current : WindowState) (target : SavedWindowConfig) :
    List PlacementOperation :=
  (if target.workspaceIndex ≠ current.workspace then
      [.moveToWorkspace target.workspaceIndex]
    else [])
  ++ (if target.monitorConnector ≠ current.connector then
        [.moveToMonitor target.monitorConnector]
      else [])

/-- Modelled from the spec: the Operation Planner.  A target config lacking
`relativeRect` is rejected with a distinct ConfigMissingRelativeRect error
instead of silently emitting no placement operation. -/
def plan (current : WindowState) (target : SavedWindowConfig)
    (geom : MonitorGeometry) : Except EngineError (List PlacementOperation) :=
  match target.relativeRect with
  | Option.none => .error .configMissingRelativeRect
  | some rel => .ok (planSteps12 current target ++ planOps36 current target geom rel)

/-! ### Window-manager semantics (faithful adapter model) -/

/-- The effect of one placement operation on a window, for a window manager that
applies operations exactly as issued. -/
def applyOp (w : WindowState) : PlacementOperation → WindowState
  | .moveToWorkspace i => { w with workspace := i }
  | .moveToMonitor c => { w with connector := c }
  | .maximize st => { w with maximizedState := st }
  | .unmaximize => { w with maximizedState := .none }
  | .setFullscreen b => { w with fullscreen := b }
  | .place r => { w with rect := r }
  | .tile p c => { w with tilePosition := p, connector := c }

/-- Folding a whole operation list over a window state. -/
def applyOps (w : WindowState) (ops : List PlacementOperation) : WindowState :=
  ops.foldl applyOp w

/-! ### Reconciliation State Machine -/

/-- Modelled from the spec: the maximum number of drift-correction attempts. -/
def maxDriftAttempts : Nat := 3

/-- Modelled from the spec: the saved record derived from a window's live state
on write-back — the live absolute rect converted to a rect relative to the
window's current monitor (an unknown connector is treated as a monitor at the
origin). -/
def configOfLive (ms : List MonitorGeometry) (w : WindowState) :
    SavedWindowConfig where
  applicationId := w.applicationId
  titlePattern :=
    match fingerprintOf w.applicationId w.title with
    | .specific t => t
    | .wildcard => "*"
  relativeRect := some (relRectOf ((findGeom ms w.connector).getD ⟨w.connector, 0, 0, 0, 0⟩) w.rect)
  monitorConnector := w.connector
  workspaceIndex := w.workspace
  maximizedState := w.maximizedState
  fullscreen := w.fullscreen
  tilePosition := w.tilePosition

/-- Modelled from the spec: the MATCHING pass run once a window is identifiable —
Identity Matcher, then Sync Policy Resolver, then (when restoring) Monitor
Preference Stack resolution and the Operation Planner; the issued operations
take the window to SETTLING.  Match confidence of an exact fingerprint match is
modelled as 1. -/
def runMatching (ms : List MonitorGeometry) (es : EngineState)
    (w : WindowState) : StepResult :=
  let ident := identityOf w.applicationId w.title
  match matchRecord es.savedConfigs w.applicationId w.title with
  | Option.none => ⟨es, ⟨ident, .tracking, w, Option.none, 0⟩, [], Option.none⟩
  | some cfg =>
    match resolvePolicy es.overrides es.syncMode w.applicationId 1 with
    | .ignore => ⟨es, ⟨ident, .tracking, w, Option.none, 0⟩, [], Option.none⟩
    | .restore =>
      let tc := restoreTarget es ident ms cfg
      let cfg1 := { cfg with monitorConnector := tc }
      match findGeom ms tc with
      | Option.none =>
          ⟨es, ⟨ident, .tracking, w, Option.none, 0⟩, [], some .targetMonitorUnavailable⟩
      | some geom =>
        match plan w cfg1 geom with
        | .error e => ⟨es, ⟨ident, .tracking, w, some cfg1, 0⟩, [], some e⟩
        | .ok ops => ⟨es, ⟨ident, .settling, w, some cfg1, 0⟩, ops, Option.none⟩

/-- Modelled from the spec: window-added — a Specific title is matched at once;
a Generic title defers matching and the window is merely tracked as NEW. -/
def handleWindowAdded (ms : List MonitorGeometry) (es : EngineState)
    (w : WindowState) : StepResult :=
  if classifySpecific w.applicationId w.title then runMatching ms es w
  else ⟨es, ⟨identityOf w.applicationId w.title, .new, w, Option.none, 0⟩, [], Option.none⟩

/-- Modelled from the spec: title-changed — while NEW a title that becomes
Specific triggers the one-time MATCHING pass; in every later phase the new
title is only observed and never re-triggers matching or restoring. -/
def handleTitleChanged (ms : List MonitorGeometry) (es : EngineState)
    (tw : TrackedWindow) (t : String) : StepResult :=
  if tw.phase = .new then
    (if classifySpecific tw.live.applicationId t then
      runMatching ms es { tw.live with title := t }
    else ⟨es, { tw with live := { tw.live with title := t } }, [], Option.none⟩)
  else ⟨es, { tw with live := { tw.live with title := t } }, [], Option.none⟩

/-- Modelled from the spec: geometry-changed — while TRACKING (or SETTLED, which
drops back to TRACKING) the live geometry is persisted to the config store as
the current truth; during a restore the event is ignored. -/
def handleGeometryChanged (ms : List MonitorGeometry) (es : EngineState)
    (tw : TrackedWindow) (r : Rect) : StepResult :=
  if tw.phase = .tracking ∨ tw.phase = .settled then
    let live1 := { tw.live with rect := r }
    ⟨{ es with savedConfigs := writeConfig es.savedConfigs tw.identity (configOfLive ms live1) },
     { tw with live := live1, phase := .tracking }, [], Option.none⟩
  else ⟨es, tw, [], Option.none⟩

/-- Modelled from the spec: window-removed — outside NEW the window's record is
written back (the pre-restore target config when mid-restore, else the live
geometry) and the window is CLOSED. -/
def handleWindowRemoved (ms : List MonitorGeometry) (es : EngineState)
    (tw : TrackedWindow) : StepResult :=
  if tw.phase = .new then ⟨es, { tw with phase := .closed }, [], Option.none⟩
  else
    let cfg :=
      if tw.phase = .restoring ∨ tw.phase = .settling then
        tw.targetConfig.getD (configOfLive ms tw.live)
      else configOfLive ms tw.live
    ⟨{ es with savedConfigs := writeConfig es.savedConfigs tw.identity cfg },
     { tw with phase := .closed }, [], Option.none⟩

/-- Modelled from the spec: monitor-layout-changed — for a TRACKING or SETTLED
window the preference stack is re-resolved; when the resolved connector differs
from the current one a restore pass is synthesized from the existing
targetConfig with only its connector field replaced.  The preference stack is
read but never written here. -/
def handleMonitorLayoutChanged (ms : List MonitorGeometry) (es : EngineState)
    (tw : TrackedWindow) : StepResult :=
  if tw.phase = .tracking ∨ tw.phase = .settled then
    match tw.targetConfig with
    | Option.none => ⟨es, tw, [], Option.none⟩
    | some cfg =>
      let tc := restoreTarget es tw.identity ms cfg
      if tc = tw.live.connector then ⟨es, tw, [], Option.none⟩
      else
        let cfg1 := { cfg with monitorConnector := tc }
        match findGeom ms tc with
        | Option.none => ⟨es, tw, [], some .targetMonitorUnavailable⟩
        | some geom =>
          match plan tw.live cfg1 geom with
          | .error e => ⟨es, tw, [], some e⟩
          | .ok ops =>
              ⟨es, { tw with targetConfig := some cfg1, phase := .settling,
                             driftAttemptCount := 0 }, ops, Option.none⟩
  else ⟨es, tw, [], Option.none⟩

/-- Modelled from the spec: an explicit user move-to-monitor action — the only
mutation of the preference stack, putting the chosen connector at the front,
followed by a synthesized restore pass to that connector using the existing
target config with its connector replaced. -/
def handleUserMonitorMove (ms : List MonitorGeometry) (es : EngineState)
    (tw : TrackedWindow) (c : String) : StepResult :=
  let es1 := { es with
    prefStacks := writeStack es.prefStacks tw.identity
      (recordUserMove (stackOf es tw.identity) c) }
  match tw.targetConfig with
  | Option.none =>
      ⟨es1, { tw with live := { tw.live with connector := c } }, [], Option.none⟩
  | some cfg =>
    let cfg1 := { cfg with monitorConnector := c }
    match findGeom ms c with
    | Option.none => ⟨es1, tw, [], some .targetMonitorUnavailable⟩
    | some geom =>
      match plan tw.live cfg1 geom with
      | .error e => ⟨es1, tw, [], some e⟩
      | .ok ops =>
          ⟨es1, { tw with targetConfig := some cfg1, phase := .settling,
                          driftAttemptCount := 0 }, ops, Option.none⟩

/-- Modelled from the spec: the SETTLING check.  The live geometry is compared
against the intended absolute rect recomputed fresh from the target config's
relativeRect and the current geometry of the target connector (rect comparison
is skipped for fullscreen or fully maximized targets, whose rect the shell
owns).  On a match the window settles and the target config becomes the saved
record; on drift with attempts remaining, planner steps 3 to 6 are re-run with
the same target config; on exhaustion the window settles anyway with a
DriftCorrectionExhausted warning.  A target config without a relativeRect is
surfaced as ConfigMissingRelativeRect and placement is skipped. -/
def settleCheck (ms : List MonitorGeometry) (es : EngineState)
    (tw : TrackedWindow) : StepResult :=
  if tw.phase = .settling then
    match tw.targetConfig with
    | Option.none => ⟨es, { tw with phase := .settled }, [], Option.none⟩
    | some cfg =>
      match cfg.relativeRect with
      | Option.none =>
          ⟨es, { tw with phase := .settled }, [], some .configMissingRelativeRect⟩
      | some rel =>
        match findGeom ms cfg.monitorConnector with
        | Option.none => ⟨es, { tw with phase := .settled }, [], some .targetMonitorUnavailable⟩
        | some geom =>
          if cfg.fullscreen = true ∨ cfg.maximizedState = .both
              ∨ tw.live.rect = absoluteRect geom rel then
            ⟨{ es with savedConfigs := writeConfig es.savedConfigs tw.identity cfg },
             { tw with phase := .settled }, [], Option.none⟩
          else if tw.driftAttemptCount < maxDriftAttempts then
            ⟨es, { tw with driftAttemptCount := tw.driftAttemptCount + 1 },
             planOps36 tw.live cfg geom rel, Option.none⟩
          else ⟨es, { tw with phase := .settled }, [], some .driftCorrectionExhausted⟩
  else ⟨es, tw, [], Option.none⟩

/-- The close-then-reopen pipeline with a faithful window manager: the open
window `w` (tracked under its identity) is removed and written back, a fresh
window `spawn` of the same application appears and is matched, the emitted
operations are applied exactly, and the settle check runs. -/
def closeThenReopen (ms : List MonitorGeometry) (es : EngineState)
    (w spawn : WindowState) : StepResult :=
  let r1 := handleWindowRemoved ms es
    ⟨identityOf w.applicationId w.title, .tracking, w, Option.none, 0⟩
  let r2 := runMatching ms r1.es spawn
  let live1 := applyOps spawn r2.ops
  settleCheck ms r2.es { r2.tw with live := live1 }

/-! ### Well-formedness predicates -/

/-- One saved record per identity: the config store's keys are pairwise
distinct. -/
def configsWF (s : List (WindowIdentity × SavedWindowConfig)) : Prop :=
  (s.map (·.1)).Nodup

/-- Preference-stack well-formedness: the stack map's keys are pairwise
distinct and every recorded sequence lists each connector at most once. -/
def stacksWF (s : List (WindowIdentity × List String)) : Prop :=
  (s.map (·.1)).Nodup ∧ ∀ e ∈ s, e.2.Nodup

/-- Decidability of the one-record-per-identity invariant. -/
instance configsWFDecidable (s : List (WindowIdentity × SavedWindowConfig)) :
    Decidable (configsWF s) :=
  inferInstanceAs (Decidable (List.Nodup _))

/-- Decidability of preference-stack well-formedness. -/
instance stacksWFDecidable (s : List (WindowIdentity × List String)) :
    Decidable (stacksWF s) :=
  inferInstanceAs (Decidable (_ ∧ _))

/-- The rank of a placement operation in the planner's fixed emission order:
workspace move, monitor move, maximize/fullscreen adjustment, placement,
tiling. -/
def opRank : PlacementOperation → Nat
  | .moveToWorkspace _ => 0
  | .moveToMonitor _ => 1
  | .maximize _ => 2
  | .unmaximize => 2
  | .setFullscreen _ => 2
  | .place _ => 3
  | .tile _ _ => 4

/-! ### Concrete scenario instances -/

/-- The primary virtual monitor of the test bench. -/
def monPrimary : MonitorGeometry := ⟨"Virtual-1", 0, 0, 1920, 1080⟩

/-- The secondary virtual monitor of the test bench. -/
def monSecondary : MonitorGeometry := ⟨"Virtual-2", 1920, 0, 1920, 1080⟩

/-- The single-monitor layout after the secondary disconnects. -/
def monsPrimaryOnly : List MonitorGeometry := [monPrimary]

/-- A fresh engine state with global sync mode RESTORE and no overrides. -/
def esEmptyRestore : EngineState := ⟨[], [], .restore, []⟩

/-- The calculator window as placed by the round-trip scenario. -/
def calcPlaced : WindowState :=
  ⟨"org.gnome.Calculator", "Calculator Session One", ⟨50, 50, 800, 600⟩, 0,
   "Virtual-1", .none, false, .none⟩

/-- The freshly spawned calculator window before the engine restores it. -/
def calcSpawn : WindowState :=
  ⟨"org.gnome.Calculator", "Calculator Session One", ⟨10, 10, 400, 300⟩, 0,
   "Virtual-1", .none, false, .none⟩

/-- The calculator window as tracked before it is closed. -/
def trackedCalc : TrackedWindow :=
  ⟨identityOf "org.gnome.Calculator" "Calculator Session One", .tracking,
   calcPlaced, Option.none, 0⟩

/-- The drift scenario's target config: relative rect x 901 y 32 on the primary
connector. -/
def driftConfig : SavedWindowConfig :=
  ⟨"com.example.WindowBot", "WindowBot Main Window", some ⟨901, 32, 800, 600⟩,
   "Virtual-1", 0, .none, false, .none⟩

/-- The drift scenario's window: the window manager initially placed it at
x 450 instead of the intended x 901. -/
def driftWindow : TrackedWindow :=
  ⟨⟨"com.example.WindowBot", .specific "WindowBot Main Window"⟩, .settling,
   ⟨"com.example.WindowBot", "WindowBot Main Window", ⟨450, 32, 800, 600⟩, 0,
    "Virtual-1", .none, false, .none⟩,
   some driftConfig, 0⟩

/-- The identity of the hot-plug scenario's window. -/
def botIdentity : WindowIdentity :=
  ⟨"com.example.WindowBot", .specific "WindowBot Main Window"⟩

/-- The hot-plug scenario's record while tiled RIGHT on the primary monitor. -/
def botConfigPrimary : SavedWindowConfig :=
  ⟨"com.example.WindowBot", "WindowBot Main Window", some ⟨960, 0, 960, 1080⟩,
   "Virtual-1", 0, .none, false, .right⟩

/-- The hot-plug scenario's record while tiled LEFT on the secondary monitor. -/
def botConfigSecondary : SavedWindowConfig :=
  ⟨"com.example.WindowBot", "WindowBot Main Window", some ⟨0, 0, 960, 1080⟩,
   "Virtual-2", 0, .none, false, .left⟩

/-- The engine state after the window was tiled RIGHT on the primary monitor
and then tiled LEFT on the secondary: the second write replaced the first (one
record per identity) and the user move to the secondary leads the preference
stack. -/
def esHotplug : EngineState :=
  ⟨writeConfig (writeConfig [] botIdentity botConfigPrimary) botIdentity botConfigSecondary,
   [(botIdentity, ["Virtual-2", "Virtual-1"])], .restore, []⟩

/-- The hot-plug scenario's window, settled on the secondary monitor tiled
LEFT, just before the secondary disconnects. -/
def botOnSecondary : TrackedWindow :=
  ⟨botIdentity, .settled,
   ⟨"com.example.WindowBot", "WindowBot Main Window", ⟨1920, 0, 960, 1080⟩, 0,
    "Virtual-2", .none, false, .left⟩,
   some botConfigSecondary, 0⟩

/-- The hot-plug scenario's window as freshly respawned on the primary monitor
after a restart with the secondary monitor absent. -/
def spawnBot : WindowState :=
  ⟨"com.example.WindowBot", "WindowBot Main Window", ⟨10, 10, 400, 300⟩, 0,
   "Virtual-1", .none, false, .none⟩

/-- A permissive RESTORE override for the test application. -/
def overrideBot : OverrideRule := ⟨"com.example.WindowBot", .restore, 0, []⟩

/-- A RESTORE override whose similarity threshold gates out low-confidence
matches. -/
def overrideStrict : OverrideRule := ⟨"com.example.WindowBot", .restore, 1, []⟩

/-! ### Helper lemmas -/

/-- The relative-to-absolute conversion inverts the save-time conversion. -/
theorem absoluteRect_relRectOf (geom : MonitorGeometry) (r : Rect) :
    absoluteRect geom (relRectOf geom r) = r := by
  cases r
  simp [absoluteRect, relRectOf]

theorem applyOps_append (w : WindowState) (a b : List PlacementOperation) :
    applyOps w (a ++ b) = applyOps (applyOps w a) b := by
  simp [applyOps, List.foldl_append]

/-- Last write wins: looking up the identity just written returns the new
record. -/
theorem lookupConfig_writeConfig_self
    (s : List (WindowIdentity × SavedWindowConfig)) (i : WindowIdentity)
    (c : SavedWindowConfig) : lookupConfig (writeConfig s i c) i = some c := by
  simp [lookupConfig, writeConfig]

/-- Writing one identity's record leaves every other identity's lookup
unchanged. -/
theorem find?_key_filter_ne
    (s : List (WindowIdentity × SavedWindowConfig)) (i j : WindowIdentity)
    (h : j ≠ i) :
    (s.filter fun e => e.1 ≠ i).find? (fun e => e.1 = j) =
      s.find? fun e => e.1 = j := by
  rw [List.find?_filter]
  congr 1
  funext a
  by_cases ha : a.1 = j
  · have hai : ¬(a.1 = i) := fun hi => h (ha ▸ hi ▸ rfl)
    simp [ha, hai, h]
  · simp [ha]

theorem lookupConfig_writeConfig_ne
    (s : List (WindowIdentity × SavedWindowConfig)) (i j : WindowIdentity)
    (c : SavedWindowConfig) (h : j ≠ i) :
    lookupConfig (writeConfig s i c) j = lookupConfig s j := by
  have hne : ¬(((i, c) : WindowIdentity × SavedWindowConfig).1 = j) :=
    fun hj => h (hj ▸ rfl)
  simp only [lookupConfig, writeConfig]
  rw [List.find?_cons_of_neg _ (by simpa using hne), find?_key_filter_ne s i j h]

/-- Matching a window right after its record was written under its own
identity finds exactly that record. -/
theorem matchRecord_writeConfig
    (s : List (WindowIdentity × SavedWindowConfig)) (a t : String)
    (c : SavedWindowConfig) :
    matchRecord (writeConfig s (identityOf a t) c) a t = some c := by
  by_cases h : classifySpecific a t
  · simp [matchRecord, identityOf, fingerprintOf, h, lookupConfig_writeConfig_self,
      Option.orElse]
  · simp [matchRecord, identityOf, fingerprintOf, h, lookupConfig_writeConfig_self]

/-- A connector whose geometry is found is among the available connectors. -/
theorem findGeom_contains (ms : List MonitorGeometry) (c : String)
    (g : MonitorGeometry) (h : findGeom ms c = some g) :
    (connectors ms).contains c = true := by
  have hmem := List.mem_of_find?_eq_some h
  have hc : g.connector = c := by
    have := List.find?_some h
    simpa using this
  simp only [connectors, List.contains_iff_exists_mem_beq]
  exact ⟨c, by simpa [hc] using List.mem_map_of_mem (·.connector) hmem, by simp⟩

/-- Applying planner steps 1 and 2 exactly moves the window to the target
workspace and monitor and changes nothing else. -/
theorem applyOps_planSteps12 (current : WindowState) (target : SavedWindowConfig) :
    (applyOps current (planSteps12 current target)).workspace = target.workspaceIndex ∧
    (applyOps current (planSteps12 current target)).connector = target.monitorConnector ∧
    (applyOps current (planSteps12 current target)).rect = current.rect ∧
    (applyOps current (planSteps12 current target)).maximizedState = current.maximizedState ∧
    (applyOps current (planSteps12 current target)).fullscreen = current.fullscreen ∧
    (applyOps current (planSteps12 current target)).tilePosition = current.tilePosition ∧
    (applyOps current (planSteps12 current target)).applicationId = current.applicationId ∧
    (applyOps current (planSteps12 current target)).title = current.title := by
  unfold planSteps12
  split_ifs <;> simp_all [applyOps, applyOp]

/-- Applying planner steps 3 to 6 exactly, on a window whose maximized and
fullscreen state agree with the planning-time current state, brings the window
to the target maximized/fullscreen state, places it at the computed absolute
rect when the target is neither fullscreen nor fully maximized, re-applies the
target tiling, and never touches workspace, application id or title. -/
theorem applyOps_planOps36 (u current : WindowState) (target : SavedWindowConfig)
    (geom : MonitorGeometry) (rel : Rect)
    (hm : u.maximizedState = current.maximizedState)
    (hf : u.fullscreen = current.fullscreen) :
    (applyOps u (planOps36 current target geom rel)).workspace = u.workspace ∧
    (applyOps u (planOps36 current target geom rel)).applicationId = u.applicationId ∧
    (applyOps u (planOps36 current target geom rel)).title = u.title ∧
    (applyOps u (planOps36 current target geom rel)).maximizedState = target.maximizedState ∧
    (applyOps u (planOps36 current target geom rel)).fullscreen = target.fullscreen ∧
    (target.fullscreen = false → target.maximizedState ≠ .both →
      (applyOps u (planOps36 current target geom rel)).rect = absoluteRect geom rel) ∧
    (target.tilePosition = .none →
      (applyOps u (planOps36 current target geom rel)).tilePosition = u.tilePosition ∧
      (applyOps u (planOps36 current target geom rel)).connector = u.connector) ∧
    (target.tilePosition ≠ .none →
      (applyOps u (planOps36 current target geom rel)).tilePosition = target.tilePosition ∧
      (applyOps u (planOps36 current target geom rel)).connector = target.monitorConnector) := by
  unfold planOps36
  split_ifs <;> simp_all [applyOps, applyOp]

/-- A faithful window manager applying a full plan takes the window exactly to
the target configuration: workspace, monitor, maximized state, fullscreen flag
and (outside fullscreen/fully-maximized targets) the absolute rect recomputed
from the target's relative rect. -/
theorem applyOps_plan (current : WindowState) (target : SavedWindowConfig)
    (geom : MonitorGeometry) (rel : Rect) (ops : List PlacementOperation)
    (hrel : target.relativeRect = some rel)
    (hok : plan current target geom = .ok ops) :
    (applyOps current ops).workspace = target.workspaceIndex ∧
    (applyOps current ops).connector = target.monitorConnector ∧
    (applyOps current ops).maximizedState = target.maximizedState ∧
    (applyOps current ops).fullscreen = target.fullscreen ∧
    (target.fullscreen = false → target.maximizedState ≠ .both →
      (applyOps current ops).rect = absoluteRect geom rel) ∧
    (target.tilePosition ≠ .none →
      (applyOps current ops).tilePosition = target.tilePosition) ∧
    (applyOps current ops).applicationId = current.applicationId ∧
    (applyOps current ops).title = current.title := by
  have hops : ops = planSteps12 current target ++ planOps36 current target geom rel := by
    unfold plan at hok
    rw [hrel] at hok
    exact (Except.ok.injEq _ _ ▸ hok).symm
  subst hops
  rw [applyOps_append]
  obtain ⟨h12w, h12c, h12r, h12m, h12f, h12t, h12a, h12ti⟩ :=
    applyOps_planSteps12 current target
  obtain ⟨h36w, h36a, h36t, h36m, h36f, h36r, h36none, h36tile⟩ :=
    applyOps_planOps36 (applyOps current (planSteps12 current target)) current
      target geom rel h12m h12f
  refine ⟨by rw [h36w, h12w], ?_, h36m, h36f,
    fun hfs hmax => h36r hfs hmax, fun ht => (h36tile ht).1,
    by rw [h36a, h12a], by rw [h36t, h12ti]⟩
  by_cases ht : target.tilePosition = .none
  · rw [(h36none ht).2, h12c]
  · exact (h36tile ht).2

/-- Writing a record preserves the one-record-per-identity invariant. -/
theorem configsWF_writeConfig (s : List (WindowIdentity × SavedWindowConfig))
    (i : WindowIdentity) (c : SavedWindowConfig) (h : configsWF s) :
    configsWF (writeConfig s i c) := by
  unfold configsWF writeConfig
  simp only [List.map_cons, List.nodup_cons]
  constructor
  · intro hmem
    obtain ⟨e, he, hei⟩ := List.mem_map.mp hmem
    have := (List.mem_filter.mp he).2
    simp [hei] at this
  · have hkeys : (s.map (·.1)).Nodup := h
    exact ((List.filter_sublist s).map (·.1)).nodup hkeys

/-- Writing a preference stack preserves well-formedness, provided the written
sequence itself has no duplicate connector. -/
theorem stacksWF_writeStack (s : List (WindowIdentity × List String))
    (i : WindowIdentity) (prefs : List String) (h : stacksWF s)
    (hp : prefs.Nodup) : stacksWF (writeStack s i prefs) := by
  obtain ⟨hkeys, helems⟩ := h
  unfold stacksWF writeStack
  refine ⟨?_, ?_⟩
  · simp only [List.map_cons, List.nodup_cons]
    constructor
    · intro hmem
      obtain ⟨e, he, hei⟩ := List.mem_map.mp hmem
      have := (List.mem_filter.mp he).2
      simp [hei] at this
    · exact ((List.filter_sublist s).map (·.1)).nodup hkeys
  · intro e he
    rcases List.mem_cons.mp he with he1 | he2
    · simpa [he1] using hp
    · exact helems e (List.mem_filter.mp he2).1

/-- A user move keeps the preference sequence duplicate-free. -/
theorem recordUserMove_nodup (prefs : List String) (c : String)
    (h : prefs.Nodup) : (recordUserMove prefs c).Nodup := by
  unfold recordUserMove
  exact List.nodup_cons.mpr ⟨by simp [h.mem_erase_iff], h.erase c⟩

/-- The preference scan returns none exactly when no listed connector is
available. -/
theorem resolveTargetConnector_eq_none_iff (prefs avail : List String) :
    resolveTargetConnector prefs avail = Option.none ↔
      ∀ c ∈ prefs, c ∉ avail := by
  simp [resolveTargetConnector, List.find?_eq_none]

/-- The preference scan returns the frontmost available connector: every
connector listed ahead of the result is unavailable. -/
theorem resolveTargetConnector_eq_some (prefs avail : List String) (c : String)
    (h : resolveTargetConnector prefs avail = some c) :
    c ∈ avail ∧ ∃ pre post, prefs = pre ++ c :: post ∧ ∀ d ∈ pre, d ∉ avail := by
  induction prefs with
  | nil => simp [resolveTargetConnector] at h
  | cons p ps ih =>
      by_cases hp : p ∈ avail
      · have hh : resolveTargetConnector (p :: ps) avail = some p := by
          unfold resolveTargetConnector
          exact List.find?_cons_of_pos _ (by simpa using hp)
        have hcp : c = p := by
          rw [hh] at h
          exact (Option.some.injEq _ _ ▸ h).symm
        subst hcp
        exact ⟨hp, [], ps, rfl, by simp⟩
      · have hh : resolveTargetConnector (p :: ps) avail =
            resolveTargetConnector ps avail := by
          unfold resolveTargetConnector
          exact List.find?_cons_of_neg _ (by simpa using hp)
        rw [hh] at h
        obtain ⟨hc, pre, post, heq, hpre⟩ := ih h
        refine ⟨hc, p :: pre, post, by rw [heq]; rfl, ?_⟩
        intro d hd
        rcases List.mem_cons.mp hd with h1 | h2
        · simpa [h1] using hp
        · exact hpre d h2

/-- Making available a connector that is absent from the preference sequence
never changes which connector the scan resolves. -/
theorem resolveTargetConnector_cons_avail (prefs avail : List String)
    (d : String) (h : d ∉ prefs) :
    resolveTargetConnector prefs (d :: avail) =
      resolveTargetConnector prefs avail := by
  induction prefs with
  | nil => rfl
  | cons p ps ih =>
      have hpd : p ≠ d := by
        intro he
        exact h (he ▸ List.mem_cons_self p ps)
      have hd : d ∉ ps := fun hm => h (List.mem_cons_of_mem _ hm)
      unfold resolveTargetConnector at ih ⊢
      by_cases hp : p ∈ avail
      · rw [List.find?_cons_of_pos _ (by simp [List.mem_cons, hp]),
          List.find?_cons_of_pos _ (by simp [hp])]
      · rw [List.find?_cons_of_neg _ (by simp [List.mem_cons, hp, hpd]),
          List.find?_cons_of_neg _ (by simp [hp]), ih hd]

/-! ### Claim theorems -/

/-- A recorded preference sequence is duplicate-free whenever the stack map is
well-formed. -/
theorem stackOf_nodup (es : EngineState) (i : WindowIdentity)
    (h : stacksWF es.prefStacks) : (stackOf es i).Nodup := by
  unfold stackOf
  cases hf : es.prefStacks.find? fun e => e.1 = i with
  | none => simp
  | some e =>
      have := h.2 e (List.mem_of_find?_eq_some hf)
      simpa using this

theorem writeStack_find_self (s : List (WindowIdentity × List String))
    (i : WindowIdentity) (p : List String) :
    ((writeStack s i p).find? fun e => e.1 = i) = some (i, p) := by
  simp [writeStack]

/-- The matching pass never touches the shared engine state. -/
theorem runMatching_es (ms : List MonitorGeometry) (es : EngineState)
    (w : WindowState) : (runMatching ms es w).es = es := by
  unfold runMatching
  dsimp only
  repeat' split
  all_goals rfl

theorem handleWindowAdded_es (ms : List MonitorGeometry) (es : EngineState)
    (w : WindowState) : (handleWindowAdded ms es w).es = es := by
  unfold handleWindowAdded
  split
  · exact runMatching_es ms es w
  · rfl

theorem handleTitleChanged_es (ms : List MonitorGeometry) (es : EngineState)
    (tw : TrackedWindow) (t : String) :
    (handleTitleChanged ms es tw t).es = es := by
  unfold handleTitleChanged
  repeat' split
  · exact runMatching_es ms es _
  all_goals rfl

theorem handleMonitorLayoutChanged_es (ms : List MonitorGeometry)
    (es : EngineState) (tw : TrackedWindow) :
    (handleMonitorLayoutChanged ms es tw).es = es := by
  unfold handleMonitorLayoutChanged
  dsimp only
  repeat' split
  all_goals rfl

/-- Window removal only rewrites the saved-config store: the preference stacks,
sync mode and overrides are untouched. -/
theorem handleWindowRemoved_frames (ms : List MonitorGeometry)
    (es : EngineState) (tw : TrackedWindow) :
    (handleWindowRemoved ms es tw).es.prefStacks = es.prefStacks ∧
    (handleWindowRemoved ms es tw).es.syncMode = es.syncMode ∧
    (handleWindowRemoved ms es tw).es.overrides = es.overrides := by
  unfold handleWindowRemoved
  dsimp only
  repeat' split
  all_goals simp

/-- The settle check only rewrites the saved-config store: the preference
stacks, sync mode and overrides are untouched. -/
theorem settleCheck_frames (ms : List MonitorGeometry) (es : EngineState)
    (tw : TrackedWindow) :
    (settleCheck ms es tw).es.prefStacks = es.prefStacks ∧
    (settleCheck ms es tw).es.syncMode = es.syncMode ∧
    (settleCheck ms es tw).es.overrides = es.overrides := by
  unfold settleCheck
  repeat' split
  all_goals simp

/-- A geometry change only rewrites the saved-config store. -/
theorem handleGeometryChanged_frames (ms : List MonitorGeometry)
    (es : EngineState) (tw : TrackedWindow) (r : Rect) :
    (handleGeometryChanged ms es tw r).es.prefStacks = es.prefStacks ∧
    (handleGeometryChanged ms es tw r).es.syncMode = es.syncMode ∧
    (handleGeometryChanged ms es tw r).es.overrides = es.overrides := by
  unfold handleGeometryChanged
  dsimp only
  repeat' split
  all_goals simp

/-- The user monitor move rewrites exactly the preference stacks (via
recordUserMove) and nothing else in the shared state. -/
theorem handleUserMonitorMove_prefStacks (ms : List MonitorGeometry)
    (es : EngineState) (tw : TrackedWindow) (c : String) :
    (handleUserMonitorMove ms es tw c).es.prefStacks =
      writeStack es.prefStacks tw.identity
        (recordUserMove (stackOf es tw.identity) c) ∧
    (handleUserMonitorMove ms es tw c).es.savedConfigs = es.savedConfigs := by
  unfold handleUserMonitorMove
  dsimp only
  repeat' split
  all_goals simp

/-- C2: Monitor preference resolution is LIFO: `resolveTargetConnector` scans
the preference sequence front-to-back and returns the first connector present
among the available connectors (everything ahead of it being unavailable),
returns none exactly when no listed connector is available (so the caller falls
back), the concrete history [C, B, A] resolves to A with only A connected, to B
once B connects, and to C once C connects, and making a connector that is
absent from the sequence available never changes the resolution (the window
does not move). -/
theorem monitor_preference_resolution_lifo :
    (∀ prefs avail c, resolveTargetConnector prefs avail = some c →
      c ∈ avail ∧ ∃ pre post, prefs = pre ++ c :: post ∧ ∀ d ∈ pre, d ∉ avail) ∧
    (∀ prefs avail, resolveTargetConnector prefs avail = Option.none ↔
      ∀ c ∈ prefs, c ∉ avail) ∧
    (∀ prefs avail d, d ∉ prefs →
      resolveTargetConnector prefs (d :: avail) =
        resolveTargetConnector prefs avail) ∧
    resolveTargetConnector ["C", "B", "A"] ["A"] = some "A" ∧
    resolveTargetConnector ["C", "B", "A"] ["A", "B"] = some "B" ∧
    resolveTargetConnector ["C", "B", "A"] ["A", "B", "C"] = some "C" :=
  ⟨resolveTargetConnector_eq_some, resolveTargetConnector_eq_none_iff,
   fun _ avail d h => resolveTargetConnector_cons_avail _ avail d h,
   by decide, by decide, by decide⟩

/-- Witness for C2 at a concrete input: the scan over [B, A] with only A
available returns A, the head B being unavailable. -/
theorem monitor_preference_resolution_lifo_witness :
    "A" ∈ ["A"] ∧
    ∃ pre post, ["B", "A"] = pre ++ "A" :: post ∧ ∀ d ∈ pre, d ∉ ["A"] :=
  monitor_preference_resolution_lifo.1 ["B", "A"] ["A"] "A" (by decide)

/-- C6: Title-change stability: once a window is SETTLED (or TRACKING), a title
change — any new title, including another saved identity's title — emits no
placement operation, keeps the phase (never MATCHING or RESTORING), and leaves
the live geometry byte-for-byte unchanged, so position and size stay within
the 20-unit tolerance of the pre-change state. -/
theorem title_change_stability (ms : List MonitorGeometry) (es : EngineState)
    (tw : TrackedWindow) (t : String)
    (h : tw.phase = .settled ∨ tw.phase = .tracking) :
    (handleTitleChanged ms es tw t).ops = [] ∧
    (handleTitleChanged ms es tw t).err = Option.none ∧
    (handleTitleChanged ms es tw t).tw.phase = tw.phase ∧
    (handleTitleChanged ms es tw t).tw.phase ≠ .matching ∧
    (handleTitleChanged ms es tw t).tw.phase ≠ .restoring ∧
    (handleTitleChanged ms es tw t).tw.live.rect = tw.live.rect ∧
    (handleTitleChanged ms es tw t).tw.live.title = t ∧
    (handleTitleChanged ms es tw t).es = es ∧
    ((handleTitleChanged ms es tw t).tw.live.rect.x - tw.live.rect.x).natAbs < 20 ∧
    ((handleTitleChanged ms es tw t).tw.live.rect.y - tw.live.rect.y).natAbs < 20 ∧
    ((handleTitleChanged ms es tw t).tw.live.rect.w - tw.live.rect.w).natAbs < 20 ∧
    ((handleTitleChanged ms es tw t).tw.live.rect.h - tw.live.rect.h).natAbs < 20 := by
  have hnew : ¬ tw.phase = .new := by
    rcases h with h | h <;> simp [h]
  have hr : handleTitleChanged ms es tw t =
      ⟨es, { tw with live := { tw.live with title := t } }, [], Option.none⟩ := by
    simp [handleTitleChanged, hnew]
  rcases h with h | h <;> simp [hr, h]

/-- Witness for C6 at a concrete input: the settled hot-plug window keeps its
geometry when its title changes to a different saved identity's title. -/
theorem title_change_stability_witness :
    (botOnSecondary.phase = .settled ∨ botOnSecondary.phase = .tracking) ∧
    (handleTitleChanged monsPrimaryOnly esHotplug botOnSecondary
        "Calculator Session One").ops = [] ∧
    (handleTitleChanged monsPrimaryOnly esHotplug botOnSecondary
        "Calculator Session One").tw.live.rect = botOnSecondary.live.rect :=
  have h := title_change_stability monsPrimaryOnly esHotplug botOnSecondary
    "Calculator Session One" (Or.inl rfl)
  ⟨Or.inl rfl, h.1, h.2.2.2.2.2.1⟩

/-- C8: a target config lacking a relative rect is surfaced as a distinct
ConfigMissingRelativeRect error: the planner rejects it instead of emitting
operations, the settle check skips placement and flags it, and the error is
distinct from drift-correction failure. -/
theorem missing_relative_rect_surfaced :
    (∀ current target geom, target.relativeRect = Option.none →
      plan current target geom = .error EngineError.configMissingRelativeRect) ∧
    (∀ ms es tw cfg, tw.phase = .settling → tw.targetConfig = some cfg →
      cfg.relativeRect = Option.none →
      (settleCheck ms es tw).ops = [] ∧
      (settleCheck ms es tw).err = some EngineError.configMissingRelativeRect ∧
      (settleCheck ms es tw).es = es) ∧
    EngineError.configMissingRelativeRect ≠ EngineError.driftCorrectionExhausted := by
  refine ⟨?_, ?_, by simp⟩
  · intro current target geom h
    simp [plan, h]
  · intro ms es tw cfg hph htc hrel
    simp [settleCheck, hph, htc, hrel]

/-- Witness for C8 at a concrete input: a config whose relative rect was
dropped is rejected by the planner with the distinct error. -/
theorem missing_relative_rect_surfaced_witness :
    ({ driftConfig with relativeRect := Option.none } : SavedWindowConfig).relativeRect
        = Option.none ∧
    plan calcSpawn { driftConfig with relativeRect := Option.none } monPrimary
      = .error EngineError.configMissingRelativeRect :=
  ⟨rfl, missing_relative_rect_surfaced.1 calcSpawn
    { driftConfig with relativeRect := Option.none } monPrimary rfl⟩

/-- C4: the preference stack is mutated only by recordUserMove — which puts the
chosen connector at the front, inserting it if absent and never duplicating —
while every engine-initiated step (fallback restore passes on layout changes,
settling, matching, title and geometry events, window removal) leaves the
stacks byte-for-byte unchanged, and well-formedness (each connector at most
once per sequence) is preserved by every operation. -/
theorem preference_stack_mutation_contract :
    (∀ prefs c, (recordUserMove prefs c).head? = some c) ∧
    (∀ prefs c x, x ∈ recordUserMove prefs c ↔ (x = c ∨ x ∈ prefs)) ∧
    (∀ prefs c, prefs.Nodup → (recordUserMove prefs c).Nodup) ∧
    (∀ ms es tw, (handleMonitorLayoutChanged ms es tw).es.prefStacks = es.prefStacks) ∧
    (∀ ms es tw, (settleCheck ms es tw).es.prefStacks = es.prefStacks) ∧
    (∀ ms es w, (handleWindowAdded ms es w).es.prefStacks = es.prefStacks) ∧
    (∀ ms es tw t, (handleTitleChanged ms es tw t).es.prefStacks = es.prefStacks) ∧
    (∀ ms es tw r, (handleGeometryChanged ms es tw r).es.prefStacks = es.prefStacks) ∧
    (∀ ms es tw, (handleWindowRemoved ms es tw).es.prefStacks = es.prefStacks) ∧
    (∀ ms es tw c, stackOf (handleUserMonitorMove ms es tw c).es tw.identity =
      recordUserMove (stackOf es tw.identity) c) ∧
    (∀ ms es tw c, stacksWF es.prefStacks →
      stacksWF (handleUserMonitorMove ms es tw c).es.prefStacks) := by
  refine ⟨fun prefs c => rfl, ?_, recordUserMove_nodup, ?_, ?_, ?_, ?_, ?_, ?_, ?_, ?_⟩
  · intro prefs c x
    by_cases hxc : x = c
    · simp [recordUserMove, hxc]
    · simp [recordUserMove, hxc, List.mem_erase_of_ne hxc]
  · intro ms es tw
    rw [handleMonitorLayoutChanged_es]
  · intro ms es tw
    exact (settleCheck_frames ms es tw).1
  · intro ms es w
    rw [handleWindowAdded_es]
  · intro ms es tw t
    rw [handleTitleChanged_es]
  · intro ms es tw r
    exact (handleGeometryChanged_frames ms es tw r).1
  · intro ms es tw
    exact (handleWindowRemoved_frames ms es tw).1
  · intro ms es tw c
    unfold stackOf
    rw [(handleUserMonitorMove_prefStacks ms es tw c).1, writeStack_find_self]
    rfl
  · intro ms es tw c h
    rw [(handleUserMonitorMove_prefStacks ms es tw c).1]
    exact stacksWF_writeStack _ _ _ h
      (recordUserMove_nodup _ _ (stackOf_nodup es tw.identity h))

/-- Witness for C4 at concrete inputs: a user move to B over the stack [A]
yields [B, A]; the hot-unplug fallback pass leaves the concrete scenario's
stacks unchanged; a concrete user move preserves well-formedness. -/
theorem preference_stack_mutation_contract_witness :
    (recordUserMove ["A"] "B").head? = some "B" ∧
    (handleMonitorLayoutChanged monsPrimaryOnly esHotplug botOnSecondary).es.prefStacks
      = esHotplug.prefStacks ∧
    (["A"] : List String).Nodup ∧
    (recordUserMove ["A"] "B").Nodup ∧
    stacksWF esHotplug.prefStacks ∧
    stacksWF (handleUserMonitorMove monsPrimaryOnly esHotplug botOnSecondary
      "Virtual-1").es.prefStacks :=
  ⟨preference_stack_mutation_contract.1 ["A"] "B",
   preference_stack_mutation_contract.2.2.2.1 monsPrimaryOnly esHotplug botOnSecondary,
   by decide,
   preference_stack_mutation_contract.2.2.1 ["A"] "B" (by decide),
   by decide,
   preference_stack_mutation_contract.2.2.2.2.2.2.2.2.2.2 monsPrimaryOnly esHotplug
     botOnSecondary "Virtual-1" (by decide)⟩

/-- C5: Sync policy resolution: with an override present its action is used,
downgraded to IGNORE when the match confidence falls below the similarity
threshold; without an override the global default applies; hence a
per-application RESTORE override restores even under a global IGNORE default,
while an application without an override under global IGNORE is never
restored — the reopened window keeps its spawn state, so its position differs
from the saved one whenever the spawn position does. -/
theorem sync_policy_resolution :
    (∀ rules mode app conf r, findRule rules app = some r →
      ¬ conf < r.similarityThreshold →
      resolvePolicy rules mode app conf = r.action) ∧
    (∀ rules mode app conf r, findRule rules app = some r →
      conf < r.similarityThreshold →
      resolvePolicy rules mode app conf = .ignore) ∧
    (∀ rules mode app conf, findRule rules app = Option.none →
      resolvePolicy rules mode app conf = mode) ∧
    (∀ rules app r, findRule rules app = some r → r.action = .restore →
      ¬ ((1 : ℚ) < r.similarityThreshold) →
      resolvePolicy rules .ignore app 1 = .restore) ∧
    (∀ ms es w spawn, es.syncMode = .ignore →
      findRule es.overrides spawn.applicationId = Option.none →
      (closeThenReopen ms es w spawn).tw.live = spawn ∧
      (spawn.rect ≠ w.rect →
        (closeThenReopen ms es w spawn).tw.live.rect ≠ w.rect)) := by
  refine ⟨?_, ?_, ?_, ?_, ?_⟩
  · intro rules mode app conf r hr hc
    simp [resolvePolicy, hr, hc]
  · intro rules mode app conf r hr hc
    simp [resolvePolicy, hr, hc]
  · intro rules mode app conf hr
    simp [resolvePolicy, hr]
  · intro rules app r hr hact hc
    simp [resolvePolicy, hr, hc, hact]
  · intro ms es w spawn hmode hrule
    have hes := handleWindowRemoved_frames ms es
      ⟨identityOf w.applicationId w.title, .tracking, w, Option.none, 0⟩
    have hpol : resolvePolicy
        (handleWindowRemoved ms es
          ⟨identityOf w.applicationId w.title, .tracking, w, Option.none, 0⟩).es.overrides
        (handleWindowRemoved ms es
          ⟨identityOf w.applicationId w.title, .tracking, w, Option.none, 0⟩).es.syncMode
        spawn.applicationId 1 = .ignore := by
      rw [hes.2.2, hes.2.1, hmode]
      simp [resolvePolicy, hrule]
    have hmain : (closeThenReopen ms es w spawn).tw.live = spawn := by
      unfold closeThenReopen
      dsimp only
      cases hm : matchRecord
          (handleWindowRemoved ms es
            ⟨identityOf w.applicationId w.title, .tracking, w, Option.none, 0⟩).es.savedConfigs
          spawn.applicationId spawn.title with
      | none => simp [runMatching, hm, applyOps, settleCheck]
      | some cfg => simp [runMatching, hm, hpol, applyOps, settleCheck]
    exact ⟨hmain, fun hne => by rw [hmain]; exact hne⟩

/-- Witness for C5 at concrete inputs: a RESTORE override for the bot
application wins over the global IGNORE default; a strict-threshold override
downgrades a low-confidence match to IGNORE; an application with no override
follows the global default, and the concrete reopened calculator keeps its
spawn state under global IGNORE. -/
theorem sync_policy_resolution_witness :
    resolvePolicy [overrideBot] .ignore "com.example.WindowBot" 1 = .restore ∧
    resolvePolicy [overrideStrict] .ignore "com.example.WindowBot" 0 = .ignore ∧
    resolvePolicy [overrideBot] .ignore "org.gnome.Calculator" 1 = .ignore ∧
    (closeThenReopen monsPrimaryOnly ⟨[], [], .ignore, [overrideBot]⟩
      calcPlaced calcSpawn).tw.live = calcSpawn :=
  ⟨sync_policy_resolution.2.2.2.1 [overrideBot] "com.example.WindowBot"
      overrideBot (by decide) rfl (by decide),
   sync_policy_resolution.2.1 [overrideStrict] .ignore "com.example.WindowBot" 0
      overrideStrict (by decide) (by decide),
   sync_policy_resolution.2.2.1 [overrideBot] .ignore "org.gnome.Calculator" 1
      (by decide),
   (sync_policy_resolution.2.2.2.2 monsPrimaryOnly
      ⟨[], [], .ignore, [overrideBot]⟩ calcPlaced calcSpawn rfl (by decide)).1⟩

/-- C3: a drift-correction pass (live geometry differing from the intended rect
with attempts remaining) re-runs Operation Planner steps 3 to 6 with the same
target config that was originally selected — the emitted operations are
computed from that config's relative rect and its target connector's geometry,
independent of the saved-config store and preference stacks, and the target
config is left untouched — and under a window manager that applies the
operations, the next settle check confirms the intended rect within the
maximum of 3 attempts. -/
theorem drift_correction_reuses_original_target
    (ms : List MonitorGeometry) (es : EngineState) (tw : TrackedWindow)
    (cfg : SavedWindowConfig) (rel : Rect) (geom : MonitorGeometry)
    (hph : tw.phase = .settling)
    (htc : tw.targetConfig = some cfg)
    (hrel : cfg.relativeRect = some rel)
    (hgeom : findGeom ms cfg.monitorConnector = some geom)
    (hfs : cfg.fullscreen = false)
    (hmax : cfg.maximizedState ≠ .both)
    (hdrift : tw.live.rect ≠ absoluteRect geom rel)
    (hcount : tw.driftAttemptCount < maxDriftAttempts) :
    (settleCheck ms es tw).ops = planOps36 tw.live cfg geom rel ∧
    (settleCheck ms es tw).tw.targetConfig = some cfg ∧
    (settleCheck ms es tw).tw.phase = .settling ∧
    (settleCheck ms es tw).tw.driftAttemptCount = tw.driftAttemptCount + 1 ∧
    (settleCheck ms es tw).tw.driftAttemptCount ≤ maxDriftAttempts ∧
    (∀ es2, (settleCheck ms es2 tw).ops = (settleCheck ms es tw).ops) ∧
    (applyOps tw.live (settleCheck ms es tw).ops).rect = absoluteRect geom rel ∧
    (settleCheck ms es
      { (settleCheck ms es tw).tw with
          live := applyOps tw.live (settleCheck ms es tw).ops }).tw.phase
      = .settled := by
  have hcond : ¬ (cfg.fullscreen = true ∨ cfg.maximizedState = .both
      ∨ tw.live.rect = absoluteRect geom rel) := by
    simp [hfs, hmax, hdrift]
  have hstep : ∀ es3 : EngineState, settleCheck ms es3 tw =
      ⟨es3, { tw with driftAttemptCount := tw.driftAttemptCount + 1 },
       planOps36 tw.live cfg geom rel, Option.none⟩ := by
    intro es3
    unfold settleCheck
    rw [if_pos hph]
    simp only [htc, hrel, hgeom]
    rw [if_neg hcond, if_pos hcount]
  have hrect : (applyOps tw.live (planOps36 tw.live cfg geom rel)).rect
      = absoluteRect geom rel :=
    (applyOps_planOps36 tw.live tw.live cfg geom rel rfl rfl).2.2.2.2.2.1 hfs hmax
  refine ⟨by rw [hstep es], by rw [hstep es]; exact htc, by rw [hstep es]; exact hph,
    by rw [hstep es], ?_, fun es2 => by rw [hstep es2, hstep es],
    by rw [hstep es]; exact hrect, ?_⟩
  · rw [hstep es]
    exact hcount
  · rw [hstep es]
    dsimp only
    unfold settleCheck
    dsimp only
    rw [if_pos hph]
    simp only [htc, hrel, hgeom]
    rw [if_pos (Or.inr (Or.inr hrect))]

/-- Witness for C3 at the spec's concrete drift scenario: the window manager
placed the window at x 450 while the target relative rect is x 901 y 32 on the
primary connector at the origin; the drift pass recomputes the intended rect
from the same config and converges on the next check. -/
theorem drift_correction_reuses_original_target_witness :
    driftWindow.phase = Phase.settling ∧
    driftWindow.targetConfig = some driftConfig ∧
    driftConfig.relativeRect = some ⟨901, 32, 800, 600⟩ ∧
    findGeom monsPrimaryOnly driftConfig.monitorConnector = some monPrimary ∧
    driftWindow.live.rect ≠ absoluteRect monPrimary ⟨901, 32, 800, 600⟩ ∧
    (applyOps driftWindow.live
        (settleCheck monsPrimaryOnly esEmptyRestore driftWindow).ops).rect
      = absoluteRect monPrimary ⟨901, 32, 800, 600⟩ ∧
    (settleCheck monsPrimaryOnly esEmptyRestore
      { (settleCheck monsPrimaryOnly esEmptyRestore driftWindow).tw with
          live := applyOps driftWindow.live
            (settleCheck monsPrimaryOnly esEmptyRestore driftWindow).ops }).tw.phase
      = Phase.settled :=
  have h := drift_correction_reuses_original_target monsPrimaryOnly
    esEmptyRestore driftWindow driftConfig ⟨901, 32, 800, 600⟩ monPrimary
    rfl rfl rfl (by decide) rfl (by decide) (by decide) (by decide)
  ⟨rfl, rfl, rfl, by decide, by decide, h.2.2.2.2.2.2.1, h.2.2.2.2.2.2.2⟩

set_option maxHeartbeats 1000000 in
/-- C7: the Operation Planner emits operations in the fixed order workspace
move (only when the workspace differs), monitor move (only when the connector
differs), maximize/fullscreen adjustment, placement at
absoluteRect = targetConnectorGeometry.origin + relativeRect (only when the
target is neither fullscreen nor fully maximized), and tiling re-application
strictly last. -/
theorem planner_emission_order (current : WindowState)
    (target : SavedWindowConfig) (geom : MonitorGeometry) (rel : Rect)
    (hrel : target.relativeRect = some rel) :
    ∃ ops, plan current target geom = .ok ops ∧
      ops.Pairwise (fun a b => opRank a ≤ opRank b) ∧
      (∀ i, PlacementOperation.moveToWorkspace i ∈ ops ↔
        (i = target.workspaceIndex ∧ target.workspaceIndex ≠ current.workspace)) ∧
      (∀ c, PlacementOperation.moveToMonitor c ∈ ops ↔
        (c = target.monitorConnector ∧ target.monitorConnector ≠ current.connector)) ∧
      (∀ r, PlacementOperation.place r ∈ ops → r = absoluteRect geom rel) ∧
      ((PlacementOperation.place (absoluteRect geom rel) ∈ ops) ↔
        (target.fullscreen = false ∧ target.maximizedState ≠ .both)) ∧
      (∀ p c, PlacementOperation.tile p c ∈ ops → ops.getLast? = some (.tile p c)) ∧
      ((∃ p c, PlacementOperation.tile p c ∈ ops) ↔ target.tilePosition ≠ .none) := by
  refine ⟨planSteps12 current target ++ planOps36 current target geom rel,
    by simp [plan, hrel], ?_, ?_, ?_, ?_, ?_, ?_, ?_⟩
  all_goals unfold planSteps12 planOps36
  all_goals split_ifs
  all_goals simp_all [opRank, List.pairwise_append, List.pairwise_cons]

/-- Witness for C7 at a concrete input: the plan for the drift config on the
primary monitor. -/
theorem planner_emission_order_witness :
    driftConfig.relativeRect = some ⟨901, 32, 800, 600⟩ ∧
    (∃ ops, plan calcSpawn driftConfig monPrimary = .ok ops ∧
      ops.Pairwise (fun a b => opRank a ≤ opRank b) ∧
      (∀ i, PlacementOperation.moveToWorkspace i ∈ ops ↔
        (i = driftConfig.workspaceIndex ∧
          driftConfig.workspaceIndex ≠ calcSpawn.workspace)) ∧
      (∀ c, PlacementOperation.moveToMonitor c ∈ ops ↔
        (c = driftConfig.monitorConnector ∧
          driftConfig.monitorConnector ≠ calcSpawn.connector)) ∧
      (∀ r, PlacementOperation.place r ∈ ops →
        r = absoluteRect monPrimary ⟨901, 32, 800, 600⟩) ∧
      ((PlacementOperation.place (absoluteRect monPrimary ⟨901, 32, 800, 600⟩) ∈ ops) ↔
        (driftConfig.fullscreen = false ∧ driftConfig.maximizedState ≠ .both)) ∧
      (∀ p c, PlacementOperation.tile p c ∈ ops →
        ops.getLast? = some (.tile p c)) ∧
      ((∃ p c, PlacementOperation.tile p c ∈ ops) ↔
        driftConfig.tilePosition ≠ .none)) :=
  ⟨rfl, planner_emission_order calcSpawn driftConfig monPrimary
    ⟨901, 32, 800, 600⟩ rfl⟩

/-- Window removal leaves the saved-config store unchanged (NEW windows) or
performs exactly one last-write-wins write under the window's identity. -/
theorem handleWindowRemoved_savedConfigs (ms : List MonitorGeometry)
    (es : EngineState) (tw : TrackedWindow) :
    (handleWindowRemoved ms es tw).es.savedConfigs = es.savedConfigs ∨
    ∃ c, (handleWindowRemoved ms es tw).es.savedConfigs =
      writeConfig es.savedConfigs tw.identity c := by
  unfold handleWindowRemoved
  dsimp only
  split
  · exact Or.inl rfl
  · exact Or.inr ⟨_, rfl⟩

/-- The settle check leaves the saved-config store unchanged or performs
exactly one last-write-wins write under the window's identity. -/
theorem settleCheck_savedConfigs (ms : List MonitorGeometry)
    (es : EngineState) (tw : TrackedWindow) :
    (settleCheck ms es tw).es.savedConfigs = es.savedConfigs ∨
    ∃ c, (settleCheck ms es tw).es.savedConfigs =
      writeConfig es.savedConfigs tw.identity c := by
  unfold settleCheck
  repeat' split
  all_goals first
    | exact Or.inl rfl
    | exact Or.inr ⟨_, rfl⟩

/-- Counterexample for C9 as stated: a geometry change on a TRACKING window —
neither a window close nor a confirmed settle — writes the saved-config
store. -/
theorem saved_record_writes_counterexample :
    trackedCalc.phase = Phase.tracking ∧
    trackedCalc.phase ≠ Phase.closed ∧
    trackedCalc.phase ≠ Phase.settling ∧
    (handleGeometryChanged monsPrimaryOnly esEmptyRestore trackedCalc
        ⟨60, 60, 800, 600⟩).es.savedConfigs ≠ esEmptyRestore.savedConfigs := by
  decide

/-- C9 (amended): the config store never holds two records for one identity —
every write is the last-write-wins writeConfig, which preserves key
distinctness and leaves other identities untouched — and the store is written
exactly on window close, on confirmed settle, and (re-saving current truth) on
live geometry changes while TRACKING or SETTLED; matching, title changes,
layout changes and user monitor moves never write it. -/
theorem saved_record_uniqueness :
    (∀ s i c, lookupConfig (writeConfig s i c) i = some c) ∧
    (∀ s i j c, j ≠ i → lookupConfig (writeConfig s i c) j = lookupConfig s j) ∧
    (∀ s i c, configsWF s → configsWF (writeConfig s i c)) ∧
    (∀ ms es w, (runMatching ms es w).es.savedConfigs = es.savedConfigs) ∧
    (∀ ms es w, (handleWindowAdded ms es w).es.savedConfigs = es.savedConfigs) ∧
    (∀ ms es tw t, (handleTitleChanged ms es tw t).es.savedConfigs = es.savedConfigs) ∧
    (∀ ms es tw, (handleMonitorLayoutChanged ms es tw).es.savedConfigs = es.savedConfigs) ∧
    (∀ ms es tw c, (handleUserMonitorMove ms es tw c).es.savedConfigs = es.savedConfigs) ∧
    (∀ ms es tw r, tw.phase = .tracking ∨ tw.phase = .settled →
      (handleGeometryChanged ms es tw r).es.savedConfigs =
        writeConfig es.savedConfigs tw.identity
          (configOfLive ms { tw.live with rect := r })) ∧
    (∀ ms es tw r, ¬(tw.phase = .tracking ∨ tw.phase = .settled) →
      (handleGeometryChanged ms es tw r).es.savedConfigs = es.savedConfigs) ∧
    (∀ ms es tw, configsWF es.savedConfigs →
      configsWF (handleWindowRemoved ms es tw).es.savedConfigs) ∧
    (∀ ms es tw, configsWF es.savedConfigs →
      configsWF (settleCheck ms es tw).es.savedConfigs) ∧
    (∀ ms es tw r, configsWF es.savedConfigs →
      configsWF (handleGeometryChanged ms es tw r).es.savedConfigs) := by
  refine ⟨lookupConfig_writeConfig_self, lookupConfig_writeConfig_ne,
    configsWF_writeConfig, ?_, ?_, ?_, ?_, ?_, ?_, ?_, ?_, ?_, ?_⟩
  · intro ms es w
    rw [runMatching_es]
  · intro ms es w
    rw [handleWindowAdded_es]
  · intro ms es tw t
    rw [handleTitleChanged_es]
  · intro ms es tw
    rw [handleMonitorLayoutChanged_es]
  · intro ms es tw c
    exact (handleUserMonitorMove_prefStacks ms es tw c).2
  · intro ms es tw r h
    unfold handleGeometryChanged
    rw [if_pos h]
  · intro ms es tw r h
    unfold handleGeometryChanged
    rw [if_neg h]
  · intro ms es tw h
    rcases handleWindowRemoved_savedConfigs ms es tw with hh | ⟨c, hh⟩
    · rw [hh]; exact h
    · rw [hh]; exact configsWF_writeConfig _ _ _ h
  · intro ms es tw h
    rcases settleCheck_savedConfigs ms es tw with hh | ⟨c, hh⟩
    · rw [hh]; exact h
    · rw [hh]; exact configsWF_writeConfig _ _ _ h
  · intro ms es tw r h
    unfold handleGeometryChanged
    split
    · exact configsWF_writeConfig _ _ _ h
    · exact h

/-- Witness for C9 (amended) at concrete inputs: writing the hot-plug
identity's record twice keeps a single record (the second), other identities
are preserved, and key distinctness holds. -/
theorem saved_record_uniqueness_witness :
    lookupConfig esHotplug.savedConfigs botIdentity = some botConfigSecondary ∧
    trackedCalc.identity ≠ botIdentity ∧
    lookupConfig (writeConfig esHotplug.savedConfigs trackedCalc.identity
        (configOfLive monsPrimaryOnly calcPlaced)) botIdentity
      = some botConfigSecondary ∧
    configsWF ([] : List (WindowIdentity × SavedWindowConfig)) ∧
    configsWF esHotplug.savedConfigs :=
  ⟨saved_record_uniqueness.1 (writeConfig [] botIdentity botConfigPrimary)
      botIdentity botConfigSecondary,
   by decide,
   by
     rw [saved_record_uniqueness.2.1 esHotplug.savedConfigs trackedCalc.identity
       botIdentity (configOfLive monsPrimaryOnly calcPlaced) (by decide)]
     exact saved_record_uniqueness.1 (writeConfig [] botIdentity botConfigPrimary)
       botIdentity botConfigSecondary,
   by decide,
   saved_record_uniqueness.2.2.1 (writeConfig [] botIdentity botConfigPrimary)
     botIdentity botConfigSecondary (by decide)⟩

/-- Counterexample for C10 as stated: in the hot-unplug scenario — a window
tiled RIGHT on the primary monitor, then moved to the secondary and tiled LEFT
(overwriting the single record per identity), then the secondary disconnects —
the engine fallback re-applies the last-written config translated to the
primary monitor, so the window ends tiled LEFT, not RIGHT; and the reopen path
fails the same way: respawning the window with the secondary absent matches the
same last-written record and ends tiled LEFT on the primary, not RIGHT. -/
theorem fallback_per_connector_counterexample :
    lookupConfig esHotplug.savedConfigs botIdentity = some botConfigSecondary ∧
    (applyOps botOnSecondary.live
        (handleMonitorLayoutChanged monsPrimaryOnly esHotplug botOnSecondary).ops).tilePosition
      = TilePosition.left ∧
    (applyOps spawnBot
        (runMatching monsPrimaryOnly esHotplug spawnBot).ops).tilePosition
      = TilePosition.left ∧
    (applyOps spawnBot
        (runMatching monsPrimaryOnly esHotplug spawnBot).ops).connector
      = "Virtual-1" ∧
    TilePosition.left ≠ TilePosition.right := by
  decide

/-- C10 (amended): an engine-initiated fallback after a monitor disconnect
re-applies the window's existing target config with only its connector field
replaced by the resolved fallback connector: the same relative rect and the
same tile position, reinterpreted against the fallback monitor's geometry
(there is no per-connector record — the store holds one last-written record
per identity), and the shared state is left unchanged; and reopening a window
whose saved monitor is absent restores, in the same way, the single matched
last-written record reinterpreted against the resolved fallback monitor's
geometry (last conjunct, over the matching pass a reopened window runs). -/
theorem fallback_reuses_target_config
    (ms : List MonitorGeometry) (es : EngineState) (tw : TrackedWindow)
    (cfg : SavedWindowConfig) (rel : Rect) (geom : MonitorGeometry)
    (tconn : String)
    (hph : tw.phase = .tracking ∨ tw.phase = .settled)
    (htc : tw.targetConfig = some cfg)
    (hrel : cfg.relativeRect = some rel)
    (hresolve : restoreTarget es tw.identity ms cfg = tconn)
    (hne : ¬ tconn = tw.live.connector)
    (hgeom : findGeom ms tconn = some geom)
    (hfs : cfg.fullscreen = false)
    (hmax : cfg.maximizedState ≠ .both) :
    (handleMonitorLayoutChanged ms es tw).tw.targetConfig
      = some { cfg with monitorConnector := tconn } ∧
    (handleMonitorLayoutChanged ms es tw).es = es ∧
    (applyOps tw.live (handleMonitorLayoutChanged ms es tw).ops).connector = tconn ∧
    (applyOps tw.live (handleMonitorLayoutChanged ms es tw).ops).rect
      = absoluteRect geom rel ∧
    (applyOps tw.live (handleMonitorLayoutChanged ms es tw).ops).workspace
      = cfg.workspaceIndex ∧
    (applyOps tw.live (handleMonitorLayoutChanged ms es tw).ops).maximizedState
      = cfg.maximizedState ∧
    (applyOps tw.live (handleMonitorLayoutChanged ms es tw).ops).fullscreen
      = cfg.fullscreen ∧
    (cfg.tilePosition ≠ .none →
      (applyOps tw.live (handleMonitorLayoutChanged ms es tw).ops).tilePosition
        = cfg.tilePosition) ∧
    (∀ ms2 es2 spawn cfg2 rel2 geom2 tconn2,
      matchRecord es2.savedConfigs spawn.applicationId spawn.title = some cfg2 →
      resolvePolicy es2.overrides es2.syncMode spawn.applicationId 1
        = SyncAction.restore →
      restoreTarget es2 (identityOf spawn.applicationId spawn.title) ms2 cfg2
        = tconn2 →
      findGeom ms2 tconn2 = some geom2 →
      cfg2.relativeRect = some rel2 →
      cfg2.fullscreen = false →
      cfg2.maximizedState ≠ MaximizedState.both →
      (applyOps spawn (runMatching ms2 es2 spawn).ops).connector = tconn2 ∧
      (applyOps spawn (runMatching ms2 es2 spawn).ops).rect
        = absoluteRect geom2 rel2 ∧
      (applyOps spawn (runMatching ms2 es2 spawn).ops).workspace
        = cfg2.workspaceIndex ∧
      (cfg2.tilePosition ≠ TilePosition.none →
        (applyOps spawn (runMatching ms2 es2 spawn).ops).tilePosition
          = cfg2.tilePosition)) := by
  have hrel1 : ({ cfg with monitorConnector := tconn } : SavedWindowConfig).relativeRect
      = some rel := hrel
  have hplan : plan tw.live { cfg with monitorConnector := tconn } geom =
      .ok (planSteps12 tw.live { cfg with monitorConnector := tconn }
        ++ planOps36 tw.live { cfg with monitorConnector := tconn } geom rel) := by
    unfold plan
    rw [show ({ cfg with monitorConnector := tconn } : SavedWindowConfig).relativeRect
      = some rel from hrel]
  have hstep : handleMonitorLayoutChanged ms es tw =
      ⟨es, ⟨tw.identity, .settling, tw.live,
             some ({ cfg with monitorConnector := tconn }), 0⟩,
       planSteps12 tw.live { cfg with monitorConnector := tconn }
         ++ planOps36 tw.live { cfg with monitorConnector := tconn } geom rel,
       Option.none⟩ := by
    unfold handleMonitorLayoutChanged
    rw [if_pos hph]
    simp only [htc, hresolve]
    rw [if_neg hne]
    simp only [hgeom, hplan]
  obtain ⟨hw, hc, hm, hf, hr, ht, _, _⟩ := applyOps_plan tw.live
    { cfg with monitorConnector := tconn } geom rel
    (planSteps12 tw.live { cfg with monitorConnector := tconn }
      ++ planOps36 tw.live { cfg with monitorConnector := tconn } geom rel)
    hrel1 hplan
  refine ⟨by rw [hstep], by rw [hstep], ?_, ?_, ?_, ?_, ?_, ?_, ?_⟩
  · rw [hstep]
    exact hc
  · rw [hstep]
    exact hr hfs hmax
  · rw [hstep]
    exact hw
  · rw [hstep]
    exact hm
  · rw [hstep]
    exact hf
  · intro htile
    rw [hstep]
    exact ht htile
  · intro ms2 es2 spawn cfg2 rel2 geom2 tconn2 hm2 hp2 htr2 hg2 hrel2 hfs2 hmax2
    set ident2 := identityOf spawn.applicationId spawn.title with hident2
    set cfgB : SavedWindowConfig := { cfg2 with monitorConnector := tconn2 }
      with hcfgB
    set opsB := planSteps12 spawn cfgB ++ planOps36 spawn cfgB geom2 rel2
      with hopsB
    have hrelB : cfgB.relativeRect = some rel2 := hrel2
    have hplanB : plan spawn cfgB geom2 = .ok opsB := by
      rw [hopsB]
      unfold plan
      rw [hrelB]
    have hrmB : runMatching ms2 es2 spawn =
        ⟨es2, ⟨ident2, Phase.settling, spawn, some cfgB, 0⟩, opsB,
         Option.none⟩ := by
      unfold runMatching
      rw [← hident2]
      dsimp only
      rw [hm2]
      dsimp only
      rw [hp2]
      dsimp only
      rw [htr2, ← hcfgB]
      rw [hg2]
      dsimp only
      rw [hplanB]
    obtain ⟨hW2, hC2, hM2, hF2, hR2, hT2, _, _⟩ :=
      applyOps_plan spawn cfgB geom2 rel2 opsB hrelB hplanB
    rw [hrmB]
    exact ⟨hC2, hR2 hfs2 hmax2, hW2, fun htile => hT2 htile⟩

/-- Witness for C10 (amended) at the hot-unplug scenario: the fallback to the
primary monitor re-uses the secondary's last-written config — left tiling and
relative rect — translated to the primary's geometry, and the respawned window
(secondary absent) is restored the same way through the matching pass. -/
theorem fallback_reuses_target_config_witness :
    (botOnSecondary.phase = .tracking ∨ botOnSecondary.phase = .settled) ∧
    botOnSecondary.targetConfig = some botConfigSecondary ∧
    restoreTarget esHotplug botOnSecondary.identity monsPrimaryOnly
      botConfigSecondary = "Virtual-1" ∧
    (applyOps botOnSecondary.live
        (handleMonitorLayoutChanged monsPrimaryOnly esHotplug botOnSecondary).ops).rect
      = absoluteRect monPrimary ⟨0, 0, 960, 1080⟩ ∧
    (applyOps botOnSecondary.live
        (handleMonitorLayoutChanged monsPrimaryOnly esHotplug botOnSecondary).ops).tilePosition
      = botConfigSecondary.tilePosition ∧
    (applyOps spawnBot (runMatching monsPrimaryOnly esHotplug spawnBot).ops).rect
      = absoluteRect monPrimary ⟨0, 0, 960, 1080⟩ ∧
    (applyOps spawnBot (runMatching monsPrimaryOnly esHotplug spawnBot).ops).tilePosition
      = botConfigSecondary.tilePosition :=
  have h := fallback_reuses_target_config monsPrimaryOnly esHotplug botOnSecondary
    botConfigSecondary ⟨0, 0, 960, 1080⟩ monPrimary "Virtual-1"
    (Or.inr rfl) rfl rfl (by decide) (by decide) (by decide) rfl (by decide)
  have hreopen := h.2.2.2.2.2.2.2.2 monsPrimaryOnly esHotplug spawnBot
    botConfigSecondary ⟨0, 0, 960, 1080⟩ monPrimary "Virtual-1"
    (by decide) (by decide) (by decide) (by decide) rfl rfl (by decide)
  ⟨Or.inr rfl, rfl, by decide, h.2.2.2.1, h.2.2.2.2.2.2.2.1 (by decide),
   hreopen.2.1, hreopen.2.2.2 (by decide)⟩

/-- C1: round-trip restore: a window placed at some geometry (hence neither
fullscreen nor fully maximized), closed (its live state written back as the
saved record), and reopened under a RESTORE policy while its monitor's
geometry is unchanged and the preference stack does not override the saved
connector, settles back to exactly the placed state: x, y, width, height,
workspace, monitor connector, maximized state and fullscreen flag all equal. -/
theorem roundtrip_restore (ms : List MonitorGeometry) (es : EngineState)
    (w spawn : WindowState) (geom : MonitorGeometry)
    (hmon : findGeom ms w.connector = some geom)
    (hfs : w.fullscreen = false)
    (hmax : w.maximizedState ≠ .both)
    (happ : spawn.applicationId = w.applicationId)
    (htitle : spawn.title = w.title)
    (hpolicy : resolvePolicy es.overrides es.syncMode w.applicationId 1 = .restore)
    (hstack : resolveTargetConnector
        (stackOf es (identityOf w.applicationId w.title)) (connectors ms)
        = Option.none ∨
      resolveTargetConnector
        (stackOf es (identityOf w.applicationId w.title)) (connectors ms)
        = some w.connector) :
    (closeThenReopen ms es w spawn).tw.phase = .settled ∧
    (closeThenReopen ms es w spawn).tw.live.rect = w.rect ∧
    (closeThenReopen ms es w spawn).tw.live.workspace = w.workspace ∧
    (closeThenReopen ms es w spawn).tw.live.connector = w.connector ∧
    (closeThenReopen ms es w spawn).tw.live.maximizedState = w.maximizedState ∧
    (closeThenReopen ms es w spawn).tw.live.fullscreen = w.fullscreen := by
  set ident := identityOf w.applicationId w.title with hident
  set cfg := configOfLive ms w with hcfg
  set cfg1 : SavedWindowConfig := { cfg with monitorConnector := w.connector } with hcfg1
  set rel0 := relRectOf geom w.rect with hrel0
  set es1 : EngineState :=
    { es with savedConfigs := writeConfig es.savedConfigs ident cfg } with hes1
  set ops := planSteps12 spawn cfg1 ++ planOps36 spawn cfg1 geom rel0 with hops
  have hr1 : handleWindowRemoved ms es ⟨ident, Phase.tracking, w, Option.none, 0⟩
      = ⟨es1, ⟨ident, Phase.closed, w, Option.none, 0⟩, [], Option.none⟩ := rfl
  have hcfgrel : cfg.relativeRect = some rel0 := by
    rw [hcfg, hrel0]
    simp [configOfLive, hmon]
  have hrel1 : cfg1.relativeRect = some rel0 := hcfgrel
  have hmatch1 : matchRecord es1.savedConfigs w.applicationId w.title = some cfg := by
    have h0 : matchRecord
        (writeConfig es.savedConfigs (identityOf w.applicationId w.title) cfg)
        w.applicationId w.title = some cfg :=
      matchRecord_writeConfig es.savedConfigs w.applicationId w.title cfg
    rw [← hident] at h0
    exact h0
  have hcontains : (connectors ms).contains cfg.monitorConnector = true :=
    findGeom_contains ms w.connector geom hmon
  have htr : restoreTarget es1 ident ms cfg = w.connector := by
    unfold restoreTarget
    have hsk : stackOf es1 ident = stackOf es ident := rfl
    rw [hsk]
    rcases hstack with h | h
    · simp only [h]
      rw [if_pos hcontains]
      rfl
    · simp only [h]
  have hpol2 : resolvePolicy es1.overrides es1.syncMode w.applicationId 1
      = SyncAction.restore := hpolicy
  have hplan : plan spawn cfg1 geom = .ok ops := by
    rw [hops]
    unfold plan
    rw [hrel1]
  have hg1 : findGeom ms cfg1.monitorConnector = some geom := hmon
  have hrm : runMatching ms es1 spawn =
      ⟨es1, ⟨ident, Phase.settling, spawn, some cfg1, 0⟩, ops, Option.none⟩ := by
    unfold runMatching
    rw [happ, htitle, ← hident]
    dsimp only
    rw [hmatch1]
    dsimp only
    rw [hpol2]
    dsimp only
    rw [htr, ← hcfg1]
    rw [show findGeom ms w.connector = some geom from hmon]
    dsimp only
    rw [hplan]
  obtain ⟨hW, hC, hM, hF, hR, _, _, _⟩ :=
    applyOps_plan spawn cfg1 geom rel0 ops hrel1 hplan
  have hfs1 : cfg1.fullscreen = false := hfs
  have hmax1 : cfg1.maximizedState ≠ .both := hmax
  have hrect0 : (applyOps spawn ops).rect = absoluteRect geom rel0 := hR hfs1 hmax1
  have hsettle : settleCheck ms es1
      ⟨ident, Phase.settling, applyOps spawn ops, some cfg1, 0⟩ =
      ⟨{ es1 with savedConfigs := writeConfig es1.savedConfigs ident cfg1 },
       ⟨ident, Phase.settled, applyOps spawn ops, some cfg1, 0⟩,
       [], Option.none⟩ := by
    unfold settleCheck
    dsimp only
    rw [if_pos rfl]
    simp only [hcfgrel, hrel1, hg1, hmon]
    rw [if_pos (Or.inr (Or.inr hrect0))]
  have hfinal : (closeThenReopen ms es w spawn).tw =
      ⟨ident, Phase.settled, applyOps spawn ops, some cfg1, 0⟩ := by
    unfold closeThenReopen
    dsimp only
    rw [← hident, hr1]
    dsimp only
    rw [hrm]
    dsimp only
    rw [hsettle]
  rw [hfinal]
  refine ⟨rfl, ?_, hW, hC, hM, hF⟩
  rw [hrect0, hrel0]
  exact absoluteRect_relRectOf geom w.rect

/-- Witness for C1 at the concrete calculator scenario: placed at
(50, 50, 800, 600) on the primary monitor, closed, reopened, the window
settles back to exactly the placed state. -/
theorem roundtrip_restore_witness :
    findGeom monsPrimaryOnly calcPlaced.connector = some monPrimary ∧
    calcPlaced.fullscreen = false ∧
    resolvePolicy esEmptyRestore.overrides esEmptyRestore.syncMode
      calcPlaced.applicationId 1 = .restore ∧
    (closeThenReopen monsPrimaryOnly esEmptyRestore calcPlaced calcSpawn).tw.phase
      = Phase.settled ∧
    (closeThenReopen monsPrimaryOnly esEmptyRestore calcPlaced calcSpawn).tw.live.rect
      = calcPlaced.rect ∧
    (closeThenReopen monsPrimaryOnly esEmptyRestore calcPlaced calcSpawn).tw.live.workspace
      = calcPlaced.workspace ∧
    (closeThenReopen monsPrimaryOnly esEmptyRestore calcPlaced calcSpawn).tw.live.connector
      = calcPlaced.connector ∧
    (closeThenReopen monsPrimaryOnly esEmptyRestore calcPlaced calcSpawn).tw.live.maximizedState
      = calcPlaced.maximizedState ∧
    (closeThenReopen monsPrimaryOnly esEmptyRestore calcPlaced calcSpawn).tw.live.fullscreen
      = calcPlaced.fullscreen :=
  have h := roundtrip_restore monsPrimaryOnly esEmptyRestore calcPlaced calcSpawn
    monPrimary (by decide) rfl (by decide) rfl rfl (by decide)
    (Or.inl (by decide))
  ⟨by decide, rfl, by decide, h.1, h.2.1, h.2.2.1, h.2.2.2.1, h.2.2.2.2.1,
   h.2.2.2.2.2⟩

end SmartAutoMove
